import Mathlib

/-!
Verification development for the CASTEP VCA reading module
(readmixcastep.py).  The Python source is shallowly embedded: text lines
are Lean Strings, Python floats are modelled as exact rationals, fallible
operations return Except over an explicit error kind that records which
Python raise-site fired.
-/

set_option maxRecDepth 10000

/-! ### Basic text utilities (Python string semantics) -/

/-- Whitespace characters recognised by Python str.split with no arguments. -/
def isPyWs (c : Char) : Bool :=
  c == ' ' || c == Char.ofNat 9 || c == Char.ofNat 10 || c == Char.ofNat 13 ||
  c == Char.ofNat 11 || c == Char.ofNat 12

/-- Accumulator-based splitter: splits on runs of whitespace, drops empties,
exactly like Python str.split(). -/
def splitWsAux : List Char → List Char → List String
  | [], acc => if acc.isEmpty then [] else [String.mk acc.reverse]
  | c :: cs, acc =>
    if isPyWs c then
      if acc.isEmpty then splitWsAux cs []
      else String.mk acc.reverse :: splitWsAux cs []
    else splitWsAux cs (c :: acc)

/-- Python line.split() with no argument. -/
def pysplit (s : String) : List String := splitWsAux s.data []

/-- Is p a literal prefix of s (character lists). -/
def prefChars : List Char → List Char → Bool
  | [], _ => true
  | _ :: _, [] => false
  | p :: ps, c :: cs => p == c && prefChars ps cs

/-- Does the character list s contain p as a contiguous substring. -/
def subChars (p : List Char) : List Char → Bool
  | [] => p.isEmpty
  | c :: cs => prefChars p (c :: cs) || subChars p cs

/-- Python (marker in line): substring containment test. -/
def lineContains (line marker : String) : Bool := subChars marker.data line.data

/-! ### Exact rationals with kernel-computable normalisation

Python floats are modelled as exact rationals.  Mathlib's Rat uses a
well-founded Nat.gcd that the kernel cannot evaluate, so concrete runs of
the embedded parsers could not be checked by decide; Q below is the same
mathematical object with a structurally recursive gcd. -/

/-- Euclid's algorithm with explicit fuel; fuel m+1 always suffices since
the first argument strictly decreases. -/
def gcdFuel : Nat → Nat → Nat → Nat
  | 0, _, n => n
  | fuel + 1, m, n => if m = 0 then n else gcdFuel fuel (n % m) m

/-- Kernel-computable gcd. -/
def ngcd (m n : Nat) : Nat := gcdFuel (m + 1) m n

/-- Exact rational: numerator and positive denominator, kept normalised by
the smart constructor Q.mkn. -/
structure Q where
  num : Int
  den : Nat
deriving DecidableEq, Repr

/-- Normalising constructor: divides out the gcd (degenerate zero
denominator, which no embedded operation produces, is mapped to 0). -/
def Q.mkn (n : Int) (d : Nat) : Q :=
  if d = 0 then ⟨0, 1⟩
  else
    let g := ngcd n.natAbs d
    ⟨n / (g : Int), d / g⟩

instance (n : Nat) : OfNat Q n := ⟨⟨(n : Int), 1⟩⟩

/-- Embed a natural number. -/
def Q.ofN (n : Nat) : Q := ⟨(n : Int), 1⟩

/-- Embed an integer. -/
def Q.ofZ (n : Int) : Q := ⟨n, 1⟩

def Q.add (a b : Q) : Q :=
  Q.mkn (a.num * (b.den : Int) + b.num * (a.den : Int)) (a.den * b.den)

def Q.neg (a : Q) : Q := ⟨-a.num, a.den⟩

def Q.sub (a b : Q) : Q := a.add b.neg

def Q.mul (a b : Q) : Q := Q.mkn (a.num * b.num) (a.den * b.den)

def Q.div (a b : Q) : Q :=
  if b.num < 0 then Q.mkn (-(a.num * (b.den : Int))) (a.den * b.num.natAbs)
  else Q.mkn (a.num * (b.den : Int)) (a.den * b.num.natAbs)

instance : Add Q := ⟨Q.add⟩
instance : Neg Q := ⟨Q.neg⟩
instance : Sub Q := ⟨Q.sub⟩
instance : Mul Q := ⟨Q.mul⟩
instance : Div Q := ⟨Q.div⟩

instance : LT Q := ⟨fun a b => a.num * (b.den : Int) < b.num * (a.den : Int)⟩

instance (a b : Q) : Decidable (a < b) :=
  inferInstanceAs (Decidable (a.num * (b.den : Int) < b.num * (a.den : Int)))

/-- Floor of a rational (denominator is positive by construction). -/
def Q.floor (a : Q) : Int := Int.fdiv a.num (a.den : Int)

/-- Sum of a list of rationals. -/
def qsum (l : List Q) : Q := l.foldl Q.add 0

/-- Digit value of a character, if it is a decimal digit. -/
def digitVal? (c : Char) : Option Nat :=
  if c.isDigit then some (c.toNat - 48) else none

/-- Accumulate decimal digits; fails on a non-digit. -/
def natDigitsAux : List Char → Nat → Option Nat
  | [], acc => some acc
  | c :: cs, acc =>
    match digitVal? c with
    | none => none
    | some d => natDigitsAux cs (10 * acc + d)

/-- Value of a nonempty all-digit character list. -/
def natDigits? (cs : List Char) : Option Nat :=
  if cs.isEmpty then none else natDigitsAux cs 0

/-- Python int(s): optional sign followed by decimal digits. -/
def pyint? (s : String) : Option Int :=
  match s.data with
  | '-' :: cs => (natDigits? cs).map (fun n => -(n : Int))
  | '+' :: cs => (natDigits? cs).map (fun n => (n : Int))
  | cs => (natDigits? cs).map (fun n => (n : Int))

/-- Numeric value of an all-digit character list (0 when empty). -/
def digitsVal (cs : List Char) : Nat :=
  cs.foldl (fun a c => 10 * a + (c.toNat - 48)) 0

/-- Python float(s) on an unsigned decimal literal (digits, optional dot).
Exponent forms are not used by the reports the claims range over. -/
def pyfloatCore (cs : List Char) : Option Q :=
  let ip := cs.takeWhile Char.isDigit
  match cs.dropWhile Char.isDigit with
  | [] => if ip.isEmpty then none else some (Q.ofN (digitsVal ip))
  | '.' :: fp =>
    if fp.all Char.isDigit && !(ip.isEmpty && fp.isEmpty) then
      some (Q.add (Q.ofN (digitsVal ip)) (Q.mkn (digitsVal fp) (10 ^ fp.length)))
    else none
  | _ => none

/-- Python float(s): optional sign then an unsigned decimal literal. -/
def pyfloat? (s : String) : Option Q :=
  match s.data with
  | '-' :: cs => (pyfloatCore cs).map Q.neg
  | '+' :: cs => pyfloatCore cs
  | cs => pyfloatCore cs

/-- Python xs[a:b] for nonnegative bounds: clamps, never fails. -/
def pyslice {α : Type} (xs : List α) (a b : Nat) : List α :=
  (xs.drop a).take (b - a)

/-- Python xs[i] with signed index: negative counts from the end;
none models the IndexError outcome. -/
def pyidx? {α : Type} (xs : List α) (i : Int) : Option α :=
  if 0 ≤ i then xs.get? i.toNat
  else if i.natAbs ≤ xs.length then xs.get? (xs.length - i.natAbs) else none

/-- Python xs[-3:]: the last three elements (all of them when shorter). -/
def pylast3 {α : Type} (xs : List α) : List α := xs.drop (xs.length - 3)

/-! ### The line locator (the strindices helper module)

The module strindices imported by the source as stri is not part of src/;
its behaviour is modelled from the spec. -/

/-- Modelled from the spec: the missing strindices module's strindices
operation.  Returns every line index i in the half-open window
[nmin, nmax) whose line contains one of the candidate marker strings, in
ascending order (spec 4.1: mode all, either-semantics over markers,
substring matching). -/
def strindicesIn (lines : List String) (markers : List String)
    (nmin nmax : Nat) : List Nat :=
  (List.range lines.length).filter
    (fun i => decide (nmin ≤ i) && decide (i < nmax) &&
      markers.any (fun m => lineContains (lines.getD i "") m))

/-- Modelled from the spec: the missing strindices module's strindex
operation.  Returns the earliest matching line index in the window, or
none when the marker is absent (spec 4.1: mode first; the Python module
signals absence by letting the caller hit an UnboundLocalError). -/
def strindexIn (lines : List String) (markers : List String)
    (nmin nmax : Nat) : Option Nat :=
  (strindicesIn lines markers nmin nmax).head?

/-! ### Position-string formatting (pzero, posstring) -/

/-- readmixcastep.pzero: make sure zeros are displayed as positive.  On
exact rationals there is no negative zero, so the conditional is the
identity it syntactically is. -/
def pzero (x : Q) : Q := if x = 0 then 0 else x

/-- Round half to even, as Python float formatting does at the cut digit. -/
def rhe (q : Q) : Int :=
  let f := q.floor
  let r := q.sub (Q.ofZ f)
  if r < (1/2 : Q) then f
  else if (1/2 : Q) < r then f + 1
  else if f % 2 = 0 then f else f + 1

/-- Decimal digits of a natural number (own structural recursion so the
kernel can evaluate it). -/
def natDigitsRepr : Nat → Nat → List Char
  | 0, _ => []
  | fuel + 1, n =>
    if n < 10 then [Char.ofNat (48 + n)]
    else natDigitsRepr fuel (n / 10) ++ [Char.ofNat (48 + n % 10)]

/-- Decimal rendering of a natural number. -/
def natRepr (n : Nat) : String := String.mk (natDigitsRepr (n + 1) n)

/-- Python format(x, .6f): six decimal places, round half to even. -/
def format6 (q : Q) : String :=
  let n := rhe (q.mul (Q.ofN 1000000))
  let sign := if q < 0 then "-" else ""
  let m := n.natAbs
  let fs := natRepr (m % 1000000)
  let pad := String.mk (List.replicate (6 - fs.length) (Char.ofNat 48))
  sign ++ natRepr (m / 1000000) ++ "." ++ pad ++ fs

/-- Python space.join. -/
def joinSpace : List String → String
  | [] => ""
  | [s] => s
  | s :: rest => s ++ " " ++ joinSpace rest

/-- readmixcastep.posstring: unambiguously flatten a position to a string. -/
def posstring (posn : List Q) : String :=
  joinSpace (posn.map (fun p => format6 (pzero p)))

/-! ### Error kinds

One constructor per distinct Python raise-site/exception reached by the
embedded operations.  unboundLocal is the UnboundLocalError a caller hits
when the line locator found nothing and nothing catches it;
iterationOutOfRange and noCompletedIterations are the two distinct
IndexError raise statements in the source; notApplicable is
get_enthalpy's NotImplementedError; keyError is get_mixkey's KeyError for
an unmatched mixture site. -/
inductive CasErr where
  | unboundLocal
  | indexError
  | valueError
  | iterationOutOfRange
  | noCompletedIterations
  | notApplicable
  | keyError
deriving DecidableEq, Repr

/-- Python xs[i] as an Except (IndexError on failure). -/
def pyidxE {α : Type} (xs : List α) (i : Int) : Except CasErr α :=
  match pyidx? xs i with
  | some v => .ok v
  | none => .error .indexError

/-! ### The cell-file reader (readcell)

Only the operations the claims mention are embedded.  The casread
collaborator object (positions/cell/elements of the input deck) is out of
scope per the spec; get_kpoints and get_cell_constrs use only the raw
cell-file lines. -/

structure readcell where
  celllines : List String

/-- Offset loop shared by both get_kpoints implementations: an even grid
component contributes offset 0, an odd component k contributes 1/(2k). -/
def kgridOffset (kgrid : List Int) : List Q :=
  kgrid.map (fun k => if k % 2 = 0 then (0 : Q) else Q.div 1 (Q.ofZ (2 * k)))

/-- readcell.get_kpoints: k-point MP grid and offset from the cell file;
grid defaults to [5, 5, 1] when the kpoints_mp_grid marker is absent. -/
def readcell.get_kpoints (r : readcell) : Except CasErr (List Int × List Q) :=
  match strindexIn r.celllines ["kpoints_mp_grid", "KPOINTS_MP_GRID"] 0 r.celllines.length with
  | none => .ok ([5, 5, 1], kgridOffset [5, 5, 1])
  | some lkpts =>
    match (pylast3 (pysplit (r.celllines.getD lkpts ""))).mapM pyint? with
    | none => .error .valueError
    | some kgrid => .ok (kgrid, kgridOffset kgrid)

/-- readcell.get_cell_constrs: CASTEP cell constraints from the cell file;
defaults to [1, 2, 3, 4, 5, 6] (no constraints) when the block is absent. -/
def readcell.get_cell_constrs (r : readcell) : Except CasErr (List Int) :=
  match strindexIn r.celllines
      ["%block cell_constraints", "%BLOCK cell_constraints", "%BLOCK CELL_CONSTRAINTS"]
      0 r.celllines.length with
  | none => .ok [1, 2, 3, 4, 5, 6]
  | some lconstrs =>
    match pyidx? r.celllines ((lconstrs : Int) + 1) with
    | none => .error .indexError
    | some line1 =>
      match (pysplit line1).mapM pyint? with
      | none => .error .valueError
      | some c1 =>
        match pyidx? r.celllines ((lconstrs : Int) + 2) with
        | none => .error .indexError
        | some line2 =>
          match (pysplit line2).mapM pyint? with
          | none => .error .valueError
          | some c2 => .ok (c1 ++ c2)

/-! ### The results-log reader (readcas)

The Python object stores the report's lines (readlines) and a float
tolerance; the quantities its constructor derives (Nions, task, complete,
Niterations, elems) are pure functions of the lines and are embedded as
such.  Extractors return Except so every Python raise is explicit. -/

structure readcas where
  caslines : List String
  flttol : Q := 1/10000

def readcas.Nlines (c : readcas) : Nat := c.caslines.length

/-- readcas.get_Nions: number of ions, token 7 of the anchor line. -/
def readcas.get_Nions (c : readcas) : Except CasErr Int :=
  match strindexIn c.caslines ["Total number of ions in cell"] 0 c.Nlines with
  | none => .error .unboundLocal
  | some l =>
    match pyidx? (pysplit (c.caslines.getD l "")) 7 with
    | none => .error .indexError
    | some t =>
      match pyint? t with
      | none => .error .valueError
      | some n => .ok n

/-- readcas.get_task: token 4 of the type-of-calculation line. -/
def readcas.get_task (c : readcas) : Except CasErr String :=
  match strindexIn c.caslines ["type of calculation                            :"] 0 c.Nlines with
  | none => .error .unboundLocal
  | some l => pyidxE (pysplit (c.caslines.getD l "")) 4

/-- readcas.check_complete: the total-time marker is present. -/
def readcas.check_complete (c : readcas) : Bool :=
  (strindexIn c.caslines ["Total time          ="] 0 c.Nlines).isSome

/-- readcas.get_Niterations: 1/0 for a (complete/incomplete) single task,
the count of with-enthalpy lines for a geometry task.  For any other task
the Python local is never bound (unreachable: the constructor has already
rejected the task). -/
def readcas.get_Niterations (c : readcas) : Except CasErr Nat :=
  match c.get_task with
  | .error e => .error e
  | .ok task =>
    if task = "single" then .ok (if c.check_complete then 1 else 0)
    else if task = "geometry" then
      .ok (strindicesIn c.caslines ["with enthalpy="] 0 c.Nlines).length
    else .error .unboundLocal

/-- readcas.get_elements: token 1 of the Nions lines starting three lines
below the first Element anchor.  A Python slice truncates silently, so
the list can be shorter than Nions in a malformed report. -/
def readcas.get_elements (c : readcas) : Except CasErr (List String) :=
  match c.get_Nions with
  | .error e => .error e
  | .ok nions =>
    match strindexIn c.caslines ["Element "] 0 c.Nlines with
    | none => .error .unboundLocal
    | some l =>
      (pyslice c.caslines (l + 3) (l + 3 + nions.toNat)).mapM
        (fun ln => pyidxE (pysplit ln) 1)

/-- readcas.geomrange: line window of one iteration.  none means the
unconstrained whole range; index 0 (or -Niterations) ends at the first
finished-iteration marker; other indices use consecutive entries of the
marker-index list with Python signed indexing; out-of-range indices
(abs above Niterations, or equal to it) raise the dedicated IndexError. -/
def readcas.geomrange (c : readcas) (iteration : Option Int)
    (nmin : Nat) (nmaxO : Option Nat) : Except CasErr (Nat × Nat) :=
  let nmax := nmaxO.getD c.Nlines
  match iteration with
  | none => .ok (nmin, nmax)
  | some it =>
    match c.get_Niterations with
    | .error e => .error e
    | .ok nit =>
      if it.natAbs > nit ∨ it = (nit : Int) then .error .iterationOutOfRange
      else if it = 0 ∨ it = -(nit : Int) then
        match strindexIn c.caslines ["finished iteration"] nmin nmax with
        | none => .error .unboundLocal
        | some lmax => .ok (nmin, lmax)
      else
        match pyidx? (strindicesIn c.caslines ["finished iteration"] nmin nmax) (it - 1),
              pyidx? (strindicesIn c.caslines ["finished iteration"] nmin nmax) it with
        | some lmin, some lmax => .ok (lmin, lmax)
        | _, _ => .error .indexError

/-- The window dispatch shared verbatim by get_posns, get_energy,
get_forces, get_stresses and get_mixkey: the whole report for a single
task, the geomrange window for a geometry task; any other task leaves the
Python locals unbound. -/
def readcas.taskRange (c : readcas) (task : String) (iteration : Option Int) :
    Except CasErr (Nat × Nat) :=
  if task = "single" then .ok (0, c.Nlines)
  else if task = "geometry" then c.geomrange iteration 0 none
  else .error .unboundLocal

/-- Parse tokens 3..5 of an atom-position line as fractional coordinates
(the numpy row assignment needs exactly three values). -/
def parsePosnLine (ln : String) : Except CasErr (List Q) :=
  match (pyslice (pysplit ln) 3 6).mapM pyfloat? with
  | none => .error .valueError
  | some ps => if ps.length = 3 then .ok ps else .error .valueError

/-- readcas.get_posns: fractional position of each ion at an iteration. -/
def readcas.get_posns (c : readcas) (iteration : Option Int) :
    Except CasErr (List (List Q)) :=
  match c.get_task with
  | .error e => .error e
  | .ok task =>
    match c.taskRange task iteration with
    | .error e => .error e
    | .ok (nmin, nmax) =>
      match c.get_Nions with
      | .error e => .error e
      | .ok nions =>
        match strindexIn c.caslines ["Element "] nmin nmax with
        | none => .error .unboundLocal
        | some lposn =>
          (List.range nions.toNat).mapM (fun i =>
            match pyidx? (pyslice c.caslines (lposn + 3) (lposn + 3 + nions.toNat)) (i : Int) with
            | none => .error .indexError
            | some ln => parsePosnLine ln)

/-- readcas.get_cell_constrs: tokens 3..8 of the constraints line; none
models the Python None returned when the anchor is absent. -/
def readcas.get_cell_constrs (c : readcas) : Except CasErr (Option (List Int)) :=
  match strindexIn c.caslines ["Cell constraints are:"] 0 c.Nlines with
  | none => .ok none
  | some l =>
    match (pyslice (pysplit (c.caslines.getD l "")) 3 9).mapM pyint? with
    | none => .error .valueError
    | some cs => .ok (some cs)

/-- Parse tokens 0..2 of a lattice-vector line (numpy row needs three). -/
def parseCellLine (ln : String) : Except CasErr (List Q) :=
  match (pyslice (pysplit ln) 0 3).mapM pyfloat? with
  | none => .error .valueError
  | some ps => if ps.length = 3 then .ok ps else .error .valueError

/-- readcas.get_cell: unit-cell vectors.  For a geometry task whose six
cell constraints are all zero the requested iteration is replaced by 0
before the window is computed (the cell is only printed once). -/
def readcas.get_cell (c : readcas) (iteration : Option Int) :
    Except CasErr (List (List Q)) :=
  match c.get_task with
  | .error e => .error e
  | .ok task =>
    match (if task = "single" then Except.ok (0, c.Nlines)
           else if task = "geometry" then
             match c.get_cell_constrs with
             | .error e => .error e
             | .ok constrs =>
               c.geomrange (if constrs = some [0, 0, 0, 0, 0, 0] then some 0 else iteration) 0 none
           else .error .unboundLocal : Except CasErr (Nat × Nat)) with
    | .error e => .error e
    | .ok (nmin, nmax) =>
      match strindexIn c.caslines ["Real Lattice(A)"] nmin nmax with
      | none => .error .unboundLocal
      | some lcell =>
        (List.range 3).mapM (fun i =>
          match pyidx? (pyslice c.caslines (lcell + 1) (lcell + 4)) (i : Int) with
          | none => .error .indexError
          | some ln => parseCellLine ln)

/-- readcas.get_enthalpy: token 6 of the with-enthalpy line in the
iteration's window.  Raises the no-completed-SCF IndexError when
Niterations is zero, and NotImplementedError for a single task. -/
def readcas.get_enthalpy (c : readcas) (iteration : Option Int) : Except CasErr Q :=
  match c.get_Niterations with
  | .error e => .error e
  | .ok nit =>
    if nit = 0 then .error .noCompletedIterations
    else
      match c.get_task with
      | .error e => .error e
      | .ok task =>
        if task = "single" then .error .notApplicable
        else if task = "geometry" then
          match c.geomrange iteration 0 none with
          | .error e => .error e
          | .ok (nmin, nmax) =>
            match strindexIn c.caslines ["with enthalpy="] nmin nmax with
            | none => .error .unboundLocal
            | some l =>
              match pyidx? (pysplit (c.caslines.getD l "")) 6 with
              | none => .error .indexError
              | some t =>
                match pyfloat? t with
                | none => .error .valueError
                | some v => .ok v
        else .error .unboundLocal

/-- readcas.get_energy: token 4 after the Final-energy-comma anchor, or,
when that anchor is absent, token 3 after the Final-energy-equals anchor. -/
def readcas.get_energy (c : readcas) (iteration : Option Int) : Except CasErr Q :=
  match c.get_Niterations with
  | .error e => .error e
  | .ok nit =>
    if nit = 0 then .error .noCompletedIterations
    else
      match c.get_task with
      | .error e => .error e
      | .ok task =>
        match c.taskRange task iteration with
        | .error e => .error e
        | .ok (nmin, nmax) =>
          match strindexIn c.caslines ["Final energy, E"] nmin nmax with
          | some l =>
            match pyidx? (pysplit (c.caslines.getD l "")) 4 with
            | none => .error .indexError
            | some t =>
              match pyfloat? t with
              | none => .error .valueError
              | some v => .ok v
          | none =>
            match strindexIn c.caslines ["Final energy ="] nmin nmax with
            | none => .error .unboundLocal
            | some l =>
              match pyidx? (pysplit (c.caslines.getD l "")) 3 with
              | none => .error .indexError
              | some t =>
                match pyfloat? t with
                | none => .error .valueError
                | some v => .ok v

/-- The constrained-force suffix, as a character list (kept free of string
escapes): the eight characters of open-paren c o n s apostrophe d
close-paren. -/
def consdPat : List Char :=
  ['(', 'c', 'o', 'n', 's', Char.ofNat 39, 'd', ')']

/-- Python str.replace of the constrained-force suffix by the empty
string (removes every occurrence). -/
def stripConsd : List Char → List Char
  | [] => []
  | c :: cs =>
    if prefChars consdPat (c :: cs) then stripConsd (cs.drop 7)
    else c :: stripConsd cs
termination_by l => l.length
decreasing_by
  all_goals simp [List.length_drop]
  omega

/-- Parse one force row: drop mixed-atom tag tokens, strip the
constrained suffix, then parse tokens 3..5 (numpy row needs three). -/
def parseForceLine (ln : String) : Except CasErr (List Q) :=
  match (pyslice ((pysplit ln).filter (fun t => t ≠ "(mixed)")) 3 6).mapM
      (fun t => pyfloat? (String.mk (stripConsd t.data))) with
  | none => .error .valueError
  | some ps => if ps.length = 3 then .ok ps else .error .valueError

/-- readcas.get_forces: force vector of each ion, rows starting six lines
below the (possibly symmetrised) Forces header. -/
def readcas.get_forces (c : readcas) (iteration : Option Int) :
    Except CasErr (List (List Q)) :=
  match c.get_Niterations with
  | .error e => .error e
  | .ok nit =>
    if nit = 0 then .error .noCompletedIterations
    else
      match c.get_task with
      | .error e => .error e
      | .ok task =>
        match c.taskRange task iteration with
        | .error e => .error e
        | .ok (nmin, nmax) =>
          match c.get_Nions with
          | .error e => .error e
          | .ok nions =>
            match strindexIn c.caslines ["* Forces *", "* Symmetrised Forces *"] nmin nmax with
            | none => .error .unboundLocal
            | some lforce =>
              (List.range nions.toNat).mapM (fun i =>
                match pyidx? (pyslice c.caslines (lforce + 6) (lforce + 6 + nions.toNat)) (i : Int) with
                | none => .error .indexError
                | some ln => parseForceLine ln)

/-- Parse one stress row: tokens 2..4 (numpy row needs three). -/
def parseStressLine (ln : String) : Except CasErr (List Q) :=
  match (pyslice (pysplit ln) 2 5).mapM pyfloat? with
  | none => .error .valueError
  | some ps => if ps.length = 3 then .ok ps else .error .valueError

/-- readcas.get_stresses: stress tensor, three rows starting six lines
below the (possibly symmetrised) Stress Tensor header. -/
def readcas.get_stresses (c : readcas) (iteration : Option Int) :
    Except CasErr (List (List Q)) :=
  match c.get_Niterations with
  | .error e => .error e
  | .ok nit =>
    if nit = 0 then .error .noCompletedIterations
    else
      match c.get_task with
      | .error e => .error e
      | .ok task =>
        match c.taskRange task iteration with
        | .error e => .error e
        | .ok (nmin, nmax) =>
          match strindexIn c.caslines
              ["* Stress Tensor *", "* Symmetrised Stress Tensor *"] nmin nmax with
          | none => .error .unboundLocal
          | some lstress =>
            (List.range 3).mapM (fun i =>
              match pyidx? (pyslice c.caslines (lstress + 6) (lstress + 9)) (i : Int) with
              | none => .error .indexError
              | some ln => parseStressLine ln)

/-- readcas.get_kpoints: like the cell-file variant but anchored on the
MP-grid line of the results log. -/
def readcas.get_kpoints (c : readcas) : Except CasErr (List Int × List Q) :=
  match strindexIn c.caslines ["MP grid size for SCF calculation is"] 0 c.Nlines with
  | none => .ok ([5, 5, 1], kgridOffset [5, 5, 1])
  | some lkpts =>
    match (pylast3 (pysplit (c.caslines.getD lkpts ""))).mapM pyint? with
    | none => .error .valueError
    | some kgrid => .ok (kgrid, kgridOffset kgrid)

/-- readcas.get_init_spin: initial spins, token 4 of the Nions rows three
lines below the Initial-magnetic anchor; an absent anchor yields the
all-zero vector (the caught UnboundLocalError), any other failure inside
the table propagates. -/
def readcas.get_init_spin (c : readcas) : Except CasErr (List Q) :=
  match c.get_Nions with
  | .error e => .error e
  | .ok nions =>
    match strindexIn c.caslines ["Initial magnetic"] 0 c.Nlines with
    | none => .ok (List.replicate nions.toNat 0)
    | some lspin =>
      (List.range nions.toNat).mapM (fun i =>
        match pyidx? (pyslice c.caslines (lspin + 3) (lspin + 3 + nions.toNat)) (i : Int) with
        | none => .error .indexError
        | some ln =>
          match pyidx? (pysplit ln) 4 with
          | none => .error .indexError
          | some t =>
            match pyfloat? t with
            | none => .error .valueError
            | some v => .ok v)

/-- readcas.get_final_spin: final spins from the Mulliken populations
table; an absent anchor re-raises the UnboundLocalError (hard failure);
a header without a spin column yields zeros; the scale-factor token must
be hbar or hbar-over-two, anything else is the ValueError. -/
def readcas.get_final_spin (c : readcas) : Except CasErr (List Q) :=
  match c.get_Nions with
  | .error e => .error e
  | .ok nions =>
    match strindexIn c.caslines ["Atomic Populations (Mulliken)"] 0 c.Nlines with
    | none => .error .unboundLocal
    | some lspin =>
      match pyidx? c.caslines ((lspin : Int) + 2) with
      | none => .error .indexError
      | some hdr =>
        if lineContains hdr "spin" || lineContains hdr "Spin" then
          match pyidx? (pysplit hdr) (-1) with
          | none => .error .indexError
          | some strfactor =>
            match (if strfactor = "(hbar)" then Except.ok (2 : Q)
                   else if strfactor = "(hbar/2)" then Except.ok (1 : Q)
                   else Except.error CasErr.valueError) with
            | .error e => .error e
            | .ok factor =>
              (List.range nions.toNat).mapM (fun i =>
                match pyidx? (pyslice c.caslines (lspin + 4) (lspin + 4 + nions.toNat)) (i : Int) with
                | none => .error .indexError
                | some ln =>
                  match pyidx? (pysplit ln) (-1) with
                  | none => .error .indexError
                  | some t =>
                    match pyfloat? t with
                    | none => .error .valueError
                    | some v => .ok (v.mul factor))
        else .ok (List.replicate nions.toNat 0)

/-! ### The mixed-site resolver (readcas.get_mixkey) -/

/-- A Python dict keyed by strings: insertion-ordered association list
where an existing key is updated in place. -/
def dictSet {α : Type} (m : List (String × α)) (k : String) (v : α) :
    List (String × α) :=
  if m.any (fun kv => decide (kv.1 = k)) then
    m.map (fun kv => if kv.1 = k then (k, v) else kv)
  else m ++ [(k, v)]

abbrev WtMap := List (String × Q)
abbrev MixMap := List (String × (String × WtMap))

/-- Squared Euclidean distance of two coordinate lists. -/
def distSq (p q : List Q) : Q :=
  qsum ((p.zip q).map (fun ab => (ab.1.sub ab.2).mul (ab.1.sub ab.2)))

/-- Does atom i match a mixture record: same element and Euclidean
distance below the tolerance.  Squares both sides, which is equivalent to
the source's norm comparison for a nonnegative tolerance (the positivity
conjunct keeps the equivalence exact for a nonpositive one). -/
def isMixMatch (elems : List String) (posns : List (List Q)) (tol : Q)
    (elem : String) (posn : List Q) (i : Nat) : Bool :=
  decide (elems.getD i "" = elem) && decide (0 < tol) &&
    decide (distSq posn (posns.getD i []) < tol.mul tol)

/-- The matching loop of the mixture block: scans every atom index in
order, overwriting matchindex on each hit, so the returned index is the
LAST matching atom (the Python loop has no break). -/
def mixMatch (elems : List String) (posns : List (List Q)) (tol : Q)
    (elem : String) (posn : List Q) (nions : Nat) : Option Nat :=
  (List.range nions).foldl
    (fun acc i => if isMixMatch elems posns tol elem posn i then some i else acc)
    none

/-- The open-record state of the mixture-block scan: accumulated weights,
matched atom index, the record's printed position and its position key
(poskey and matchindex are bound exactly when posn is). -/
structure MixState where
  wts : WtMap
  matchindex : Option Nat
  posn : Option (List Q)
  poskey : Option String

/-- Flush an open record into the map, keyed by the matched atom's own
recorded position; none models the caught IndexError when the element
list is too short for the matched index. -/
def flushMix (elems : List String) (st : MixState) (m : MixMap) : Option MixMap :=
  match st.poskey, st.matchindex with
  | some pk, some mi =>
    match elems[mi]? with
    | none => none
    | some e => some (dictSet m pk (e, st.wts))
  | _, _ => none

/-- The while loop of readcas.get_mixkey, one step per line starting at
the first data row of the Mixture block.  The loop advances one line per
step and Python exits it with a caught IndexError as soon as l leaves the
report, so fuel Nlines + 1 is never exhausted; the except clause catches
UnboundLocalError and IndexError (returning the map built so far, which
also skips the final flush when the block runs off the file or hits an
empty line), while ValueError and the KeyError of an unmatched site
propagate. -/
def mixScanF (lines : List String) (elems : List String) (posns : List (List Q))
    (nions : Nat) (tol : Q) :
    Nat → Nat → MixState → MixMap → Except CasErr MixMap
  | 0, _, _, m => .ok m
  | fuel + 1, l, st, m =>
    match lines[l]? with
    | none => .ok m
    | some line =>
      match (pysplit line).head? with
      | none => .ok m
      | some t0 =>
        if t0 = "x" then
          if (pysplit line).length = 8 then
            match (match st.posn with
                   | none => some (m, st.wts)
                   | some _ =>
                     match flushMix elems st m with
                     | none => none
                     | some m1 => some (m1, [])) with
            | none => .ok m
            | some (m1, wcur) =>
              match (pyslice (pysplit line) 2 5).mapM pyfloat? with
              | none => .error .valueError
              | some posn =>
                if nions ≤ elems.length then
                  match mixMatch elems posns tol ((pysplit line).getD 5 "") posn nions with
                  | none => .error .keyError
                  | some mi =>
                    match pyfloat? ((pysplit line).getD 6 "") with
                    | none => .error .valueError
                    | some w =>
                      mixScanF lines elems posns nions tol fuel (l + 1)
                        { wts := dictSet wcur ((pysplit line).getD 5 "") w,
                          matchindex := some mi,
                          posn := some posn,
                          poskey := some (posstring (posns.getD mi [])) } m1
                else .ok m1
          else
            match pyidx? (pysplit line) 1 with
            | none => .ok m
            | some elem =>
              match pyidx? (pysplit line) 2 with
              | none => .ok m
              | some wt =>
                match pyfloat? wt with
                | none => .error .valueError
                | some w =>
                  mixScanF lines elems posns nions tol fuel (l + 1)
                    { st with wts := dictSet st.wts elem w } m
        else
          match st.posn with
          | none => .ok m
          | some _ =>
            match flushMix elems st m with
            | none => .ok m
            | some m1 => .ok m1

/-- The default one-entry-per-atom map built before the Mixture block is
read; none models the IndexError when the element list is shorter than
Nions (this loop is outside the try block, so that error propagates). -/
def buildDefault (posns : List (List Q)) (elems : List String) (nions : Nat) :
    Option MixMap :=
  (List.range nions).foldlM
    (fun m i =>
      match elems[i]? with
      | none => none
      | some e => some (dictSet m (posstring (posns.getD i [])) (e, [(e, (1 : Q))])))
    []

/-- readcas.get_mixkey: mapping from position key to representative
element and occupancy weights, reconciling the optional Mixture block
against the extracted positions. -/
def readcas.get_mixkey (c : readcas) (iteration : Option Int) :
    Except CasErr MixMap :=
  match c.get_posns iteration with
  | .error e => .error e
  | .ok posns =>
    match c.get_task with
    | .error e => .error e
    | .ok task =>
      match c.taskRange task iteration with
      | .error e => .error e
      | .ok (nmin, nmax) =>
        match c.get_Nions with
        | .error e => .error e
        | .ok nions =>
          match c.get_elements with
          | .error e => .error e
          | .ok elems =>
            match buildDefault posns elems nions.toNat with
            | none => .error .indexError
            | some m0 =>
              match strindexIn c.caslines ["Mixture"] nmin nmax with
              | none => .ok m0
              | some lmix =>
                mixScanF c.caslines elems posns nions.toNat c.flttol
                  (c.Nlines + 1) (lmix + 3) ⟨[], none, none, none⟩ m0

instance {ε α : Type} [DecidableEq ε] [DecidableEq α] : DecidableEq (Except ε α) :=
  fun a b =>
    match a, b with
    | .ok x, .ok y =>
      if h : x = y then .isTrue (by rw [h]) else .isFalse (fun hc => h (Except.ok.inj hc))
    | .error x, .error y =>
      if h : x = y then .isTrue (by rw [h]) else .isFalse (fun hc => h (Except.error.inj hc))
    | .ok _, .error _ => .isFalse Except.noConfusion
    | .error _, .ok _ => .isFalse Except.noConfusion

/-! ### Concrete reports used by witnesses and counterexamples -/

/-- A two-iteration geometry results log (real CASTEP logs print the
finished-iteration and with-enthalpy markers on the same line). -/
def exTile : readcas :=
  { caslines :=
      [ "type of calculation                            : geometry optimization",
        "Total number of ions in cell =  2",
        "LBFGS: finished iteration     0 with enthalpy= -100.0 eV",
        "LBFGS: finished iteration     1 with enthalpy= -101.0 eV" ] }

/-- A one-iteration geometry results log whose six cell constraints are
all zero and whose lattice block precedes the finish marker. -/
def exGeomZero : readcas :=
  { caslines :=
      [ "type of calculation                            : geometry optimization",
        "Cell constraints are:  0 0 0 0 0 0",
        "            Real Lattice(A)",
        " 1.0 0.0 0.0",
        " 0.0 1.0 0.0",
        " 0.0 0.0 1.0",
        "LBFGS: finished iteration     0 with enthalpy= -1.0 eV" ] }

/-- A geometry results log with a with-enthalpy line but no
finished-iteration marker. -/
def exC2 : readcas :=
  { caslines :=
      [ "type of calculation                            : geometry optimization",
        "converged with enthalpy= -5.0 eV" ] }

/-- An incomplete single-point results log (no total-time marker). -/
def exSingleInc : readcas :=
  { caslines :=
      [ "type of calculation                            : single point energy" ] }

/-- A complete single-point results log with two Fe atoms very close
together and a mixture block whose first row is within tolerance of both
atoms. -/
def mixEx : readcas :=
  { caslines :=
      [ "type of calculation                            : single point energy",
        "Total number of ions in cell =  2",
        "Total time          =  10.0 s",
        "     Element    Atom        u          v          w",
        "aaaa",
        "bbbb",
        "  x  Fe  1  0.000000  0.000000  0.000000  x",
        "  x  Fe  2  0.000010  0.000000  0.000000  x",
        "      Mixture",
        "cccc",
        "dddd",
        "  x  x  0.000000  0.000000  0.000000  Fe  0.700000  x",
        "  x  Ni  0.300000",
        "endblock" ] }

/-- A cell file declaring a 4 4 1 MP grid. -/
def cellKp4 : readcell := ⟨["kpoints_mp_grid 4 4 1"]⟩

/-- A results log declaring a 4 4 1 MP grid. -/
def casKp4 : readcas := { caslines := ["MP grid size for SCF calculation is 4 4 1"] }

/-- A cell file with no k-point grid and no constraints block. -/
def cellPlain : readcell := ⟨["hello world"]⟩

/-- A results log with no k-point marker. -/
def casPlain : readcas := { caslines := ["hello world"] }

/-! ### Claim theorems -/

/-- C4 (amended).  A report declaring a kpoints_mp_grid of 4 4 1 makes
get_kpoints return the grid [4, 4, 1] with offset [0, 0, 1/2] (not 1/4 as
the spec claims: the odd component k contributes 1/(2k), and k here is
1), in both the cell-file reader and the results-log reader. -/
theorem c4_theorem (r : readcell) (c : readcas) (l1 l2 : Nat)
    (h1 : strindexIn r.celllines ["kpoints_mp_grid", "KPOINTS_MP_GRID"] 0
            r.celllines.length = some l1)
    (h2 : pylast3 (pysplit (r.celllines.getD l1 "")) = ["4", "4", "1"])
    (h3 : strindexIn c.caslines ["MP grid size for SCF calculation is"] 0 c.Nlines = some l2)
    (h4 : pylast3 (pysplit (c.caslines.getD l2 "")) = ["4", "4", "1"]) :
    r.get_kpoints = .ok ([4, 4, 1], [0, 0, 1/2]) ∧
      c.get_kpoints = .ok ([4, 4, 1], [0, 0, 1/2]) := by
  constructor
  · unfold readcell.get_kpoints
    rw [h1]
    simp only [h2]
    rfl
  · unfold readcas.get_kpoints
    rw [h3]
    simp only [h4]
    rfl

/-- C4 witness: the theorem applied to concrete one-line reports. -/
theorem c4_witness :
    strindexIn cellKp4.celllines ["kpoints_mp_grid", "KPOINTS_MP_GRID"] 0
        cellKp4.celllines.length = some 0 ∧
    pylast3 (pysplit (cellKp4.celllines.getD 0 "")) = ["4", "4", "1"] ∧
    strindexIn casKp4.caslines ["MP grid size for SCF calculation is"] 0
        casKp4.Nlines = some 0 ∧
    pylast3 (pysplit (casKp4.caslines.getD 0 "")) = ["4", "4", "1"] ∧
    (cellKp4.get_kpoints = .ok ([4, 4, 1], [0, 0, 1/2]) ∧
      casKp4.get_kpoints = .ok ([4, 4, 1], [0, 0, 1/2])) :=
  ⟨by decide, by decide, by decide, by decide,
    c4_theorem cellKp4 casKp4 0 0 (by decide) (by decide) (by decide) (by decide)⟩

/-- C4 counterexample: on a report declaring grid 4 4 1 both readers
return offset [0, 0, 1/2], not the [0, 0, 1/4] the claim states. -/
theorem c4_counterexample :
    cellKp4.get_kpoints = .ok ([4, 4, 1], [0, 0, 1/2]) ∧
    casKp4.get_kpoints = .ok ([4, 4, 1], [0, 0, 1/2]) ∧
    cellKp4.get_kpoints ≠ .ok ([4, 4, 1], [0, 0, 1/4]) ∧
    casKp4.get_kpoints ≠ .ok ([4, 4, 1], [0, 0, 1/4]) := by
  refine ⟨by decide, by decide, by decide, by decide⟩

/-- C10 (confirmed).  When no k-point grid marker is present, get_kpoints
returns the default grid [5, 5, 1] with derived offset
[1/10, 1/10, 1/2], in both readers. -/
theorem c10_theorem (r : readcell) (c : readcas)
    (h1 : strindexIn r.celllines ["kpoints_mp_grid", "KPOINTS_MP_GRID"] 0
            r.celllines.length = none)
    (h2 : strindexIn c.caslines ["MP grid size for SCF calculation is"] 0 c.Nlines = none) :
    r.get_kpoints = .ok ([5, 5, 1], [1/10, 1/10, 1/2]) ∧
      c.get_kpoints = .ok ([5, 5, 1], [1/10, 1/10, 1/2]) := by
  constructor
  · unfold readcell.get_kpoints
    rw [h1]
    rfl
  · unfold readcas.get_kpoints
    rw [h2]
    rfl

/-- C10 witness: the theorem applied to concrete marker-free reports. -/
theorem c10_witness :
    strindexIn cellPlain.celllines ["kpoints_mp_grid", "KPOINTS_MP_GRID"] 0
        cellPlain.celllines.length = none ∧
    strindexIn casPlain.caslines ["MP grid size for SCF calculation is"] 0
        casPlain.Nlines = none ∧
    (cellPlain.get_kpoints = .ok ([5, 5, 1], [1/10, 1/10, 1/2]) ∧
      casPlain.get_kpoints = .ok ([5, 5, 1], [1/10, 1/10, 1/2])) :=
  ⟨by decide, by decide, c10_theorem cellPlain casPlain (by decide) (by decide)⟩

/-- C9 (amended).  When the cell-constraints anchor is absent neither
reader fails, but only the input-deck reader substitutes the identity
default [1, 2, 3, 4, 5, 6]; the results-log reader substitutes None. -/
theorem c9_theorem (r : readcell) (c : readcas)
    (h1 : strindexIn r.celllines
            ["%block cell_constraints", "%BLOCK cell_constraints", "%BLOCK CELL_CONSTRAINTS"]
            0 r.celllines.length = none)
    (h2 : strindexIn c.caslines ["Cell constraints are:"] 0 c.Nlines = none) :
    r.get_cell_constrs = .ok [1, 2, 3, 4, 5, 6] ∧ c.get_cell_constrs = .ok none := by
  constructor
  · unfold readcell.get_cell_constrs
    rw [h1]
  · unfold readcas.get_cell_constrs
    rw [h2]

/-- C9 witness: the theorem applied to concrete anchor-free reports. -/
theorem c9_witness :
    strindexIn cellPlain.celllines
        ["%block cell_constraints", "%BLOCK cell_constraints", "%BLOCK CELL_CONSTRAINTS"]
        0 cellPlain.celllines.length = none ∧
    strindexIn exTile.caslines ["Cell constraints are:"] 0 exTile.Nlines = none ∧
    (cellPlain.get_cell_constrs = .ok [1, 2, 3, 4, 5, 6] ∧
      exTile.get_cell_constrs = .ok none) :=
  ⟨by decide, by decide, c9_theorem cellPlain exTile (by decide) (by decide)⟩

/-- C9 counterexample: a results log without the anchor yields None, not
the claimed identity default. -/
theorem c9_counterexample :
    exTile.get_cell_constrs = .ok none ∧
    exTile.get_cell_constrs ≠ .ok (some [1, 2, 3, 4, 5, 6]) := by
  refine ⟨by decide, by decide⟩

/-- C8 (amended).  For a single-task results log get_enthalpy never
returns a value for any iteration argument: it fails with the
NotImplementedError (the spec's NotApplicable) when the run completed
(Niterations = 1), but with the distinct no-completed-SCF IndexError when
the run is incomplete (Niterations = 0). -/
theorem c8_theorem (c : readcas) (htask : c.get_task = .ok "single") (it : Option Int) :
    c.get_enthalpy it =
      .error (if c.check_complete then CasErr.notApplicable
              else CasErr.noCompletedIterations) := by
  unfold readcas.get_enthalpy readcas.get_Niterations
  rw [htask]
  cases hcc : c.check_complete <;> simp [hcc]

/-- C8 witness: the theorem applied to the complete single-task report. -/
theorem c8_witness :
    mixEx.get_task = .ok "single" ∧
    mixEx.get_enthalpy (some 0) = .error CasErr.notApplicable :=
  ⟨by decide, (c8_theorem mixEx (by decide) (some 0)).trans (by decide)⟩

/-- C8 counterexample: on an incomplete single-task report get_enthalpy
fails, but with the no-completed-SCF IndexError, not NotApplicable. -/
theorem c8_counterexample :
    exSingleInc.get_task = .ok "single" ∧
    exSingleInc.get_enthalpy (some (-1)) = .error CasErr.noCompletedIterations ∧
    exSingleInc.get_enthalpy (some (-1)) ≠ .error CasErr.notApplicable := by
  refine ⟨by decide, by decide, by decide⟩

/-- C7 (confirmed).  Spin extraction is asymmetric: with no
initial-magnetic table get_init_spin returns the all-zero vector of
length Nions, while with no Mulliken-populations table get_final_spin
fails (with the re-raised UnboundLocalError). -/
theorem c7_theorem (c1 c2 : readcas) (n : Int)
    (hN : c1.get_Nions = .ok n)
    (h1 : strindexIn c1.caslines ["Initial magnetic"] 0 c1.Nlines = none)
    (hN2 : ∃ n2, c2.get_Nions = .ok n2)
    (h2 : strindexIn c2.caslines ["Atomic Populations (Mulliken)"] 0 c2.Nlines = none) :
    c1.get_init_spin = .ok (List.replicate n.toNat 0) ∧
      c2.get_final_spin = .error CasErr.unboundLocal := by
  constructor
  · unfold readcas.get_init_spin
    rw [hN]
    simp only [h1]
  · obtain ⟨n2, hn2⟩ := hN2
    unfold readcas.get_final_spin
    rw [hn2]
    simp only [h2]

/-- C7 witness: the theorem applied to a report with neither table. -/
theorem c7_witness :
    exTile.get_Nions = .ok 2 ∧
    strindexIn exTile.caslines ["Initial magnetic"] 0 exTile.Nlines = none ∧
    strindexIn exTile.caslines ["Atomic Populations (Mulliken)"] 0 exTile.Nlines = none ∧
    (exTile.get_init_spin = .ok (List.replicate (2 : Int).toNat 0) ∧
      exTile.get_final_spin = .error CasErr.unboundLocal) :=
  ⟨by decide, by decide, by decide,
    c7_theorem exTile exTile 2 (by decide) (by decide) ⟨2, by decide⟩ (by decide)⟩

/-- C6 (confirmed).  On a geometry report whose six cell constraints are
all zero, get_cell gives the same answer for every iteration argument as
for iteration 0: the all-zero constraints force the window of the first
iteration regardless of the request. -/
theorem c6_theorem (c : readcas)
    (htask : c.get_task = .ok "geometry")
    (hcon : c.get_cell_constrs = .ok (some [0, 0, 0, 0, 0, 0]))
    (it : Option Int) :
    c.get_cell it = c.get_cell (some 0) := by
  unfold readcas.get_cell
  rw [htask, hcon]
  simp

/-- C6 witness: the theorem applied to the frozen-cell geometry report at
iteration 5. -/
theorem c6_witness :
    exGeomZero.get_task = .ok "geometry" ∧
    exGeomZero.get_cell_constrs = .ok (some [0, 0, 0, 0, 0, 0]) ∧
    exGeomZero.get_cell (some 5) = exGeomZero.get_cell (some 0) :=
  ⟨by decide, by decide, c6_theorem exGeomZero (by decide) (by decide) (some 5)⟩

/-- An element read by getD at an in-range index is a member of the list. -/
theorem getD_mem {α : Type} : ∀ (l : List α) (i : Nat) (d : α), i < l.length →
    l.getD i d ∈ l
  | a :: t, 0, _, _ => List.mem_cons_self a t
  | a :: t, i + 1, d, h =>
    List.mem_cons_of_mem a (getD_mem t i d (by simpa using h))
  | [], _, _, h => absurd h (by simp)

/-- C2 (amended).  For a geometry-task report Niterations is the number
of lines containing the with-enthalpy marker; it equals the number of
lines containing the finished-iteration marker whenever each report line
contains one marker exactly when it contains the other (true of real
CASTEP logs, which print both on the same line). -/
theorem c2_theorem (c : readcas)
    (htask : c.get_task = .ok "geometry")
    (hmk : ∀ ln ∈ c.caslines,
      lineContains ln "finished iteration" = lineContains ln "with enthalpy=") :
    c.get_Niterations =
      .ok ((strindicesIn c.caslines ["finished iteration"] 0 c.Nlines).length) := by
  unfold readcas.get_Niterations
  rw [htask]
  show Except.ok (strindicesIn c.caslines ["with enthalpy="] 0 c.Nlines).length =
    Except.ok (strindicesIn c.caslines ["finished iteration"] 0 c.Nlines).length
  simp only [Except.ok.injEq]
  congr 1
  unfold strindicesIn
  apply List.filter_congr
  intro a ha
  have hlt : a < c.caslines.length := List.mem_range.mp ha
  have hc := hmk (c.caslines.getD a "") (getD_mem c.caslines a "" hlt)
  simp only [List.any_cons, List.any_nil, Bool.or_false, hc]

/-- C2 witness: the theorem applied to the two-iteration log, whose every
line contains the finished-iteration marker iff it contains the
with-enthalpy marker. -/
theorem c2_witness :
    exTile.get_task = .ok "geometry" ∧
    (∀ ln ∈ exTile.caslines,
      lineContains ln "finished iteration" = lineContains ln "with enthalpy=") ∧
    exTile.get_Niterations =
      .ok ((strindicesIn exTile.caslines ["finished iteration"] 0 exTile.Nlines).length) :=
  ⟨by decide, by decide, c2_theorem exTile (by decide) (by decide)⟩

/-- C2 counterexample: a geometry report with a with-enthalpy line but no
finished-iteration marker has Niterations 1 while zero lines match the
finished-iteration marker. -/
theorem c2_counterexample :
    exC2.get_task = .ok "geometry" ∧
    exC2.get_Niterations = .ok 1 ∧
    (strindicesIn exC2.caslines ["finished iteration"] 0 exC2.Nlines).length = 0 ∧
    (1 : Nat) ≠ 0 := by
  refine ⟨by decide, by decide, by decide, by decide⟩

/-- C5 (confirmed).  On a geometry report with at least two iterations,
whenever geomrange returns windows for iterations 0 and 1 they tile:
the upper bound of the first window is the lower bound of the second. -/
theorem c5_theorem (c : readcas) (N l0 u0 l1 u1 : Nat)
    (hN : c.get_Niterations = .ok N) (h2 : 2 ≤ N)
    (h0 : c.geomrange (some 0) 0 none = .ok (l0, u0))
    (h1 : c.geomrange (some 1) 0 none = .ok (l1, u1)) :
    u0 = l1 := by
  simp only [readcas.geomrange, hN, Option.getD] at h0 h1
  split at h0
  case isTrue hc => simp at h0
  split at h0
  case isFalse hc => simp at hc
  split at h0
  case h_1 => simp at h0
  case h_2 lmax0 heq0 =>
  split at h1
  case isTrue hc =>
    rcases hc with hc | hc <;> omega
  split at h1
  case isTrue hc =>
    rcases hc with hc | hc <;> omega
  split at h1
  case h_2 => simp at h1
  case h_1 lmin1 lmax1 heqa heqb =>
  rw [show ((1 : Int) - 1) = 0 from rfl] at heqa
  unfold strindexIn at heq0
  cases hind : strindicesIn c.caslines ["finished iteration"] 0 c.Nlines with
  | nil =>
    rw [hind] at heq0
    simp at heq0
  | cons a t =>
    rw [hind] at heq0 heqa
    simp only [List.head?, Option.some.injEq] at heq0
    simp [pyidx?] at heqa
    simp only [Except.ok.injEq, Prod.mk.injEq] at h0 h1
    omega

/-- C5 witness: the theorem applied to the two-iteration log, where the
first window is (0, 2) and the second is (2, 3). -/
theorem c5_witness :
    exTile.get_Niterations = .ok 2 ∧
    exTile.geomrange (some 0) 0 none = .ok (0, 2) ∧
    exTile.geomrange (some 1) 0 none = .ok (2, 3) ∧
    (2 : Nat) = 2 :=
  ⟨by decide, by decide, by decide,
    c5_theorem exTile 2 0 2 2 3 (by decide) (by omega) (by decide) (by decide)⟩

/-- An out-of-range iteration index makes geomrange fail with the
dedicated IndexError. -/
theorem geomrange_oor (c : readcas) (N : Nat) (i : Int)
    (hN : c.get_Niterations = .ok N)
    (hi : i.natAbs > N ∨ i = (N : Int)) :
    c.geomrange (some i) 0 none = .error .iterationOutOfRange := by
  simp only [readcas.geomrange, hN, Option.getD]
  rw [if_pos hi]

/-- C1 (amended).  On a geometry report with at least one completed
iteration and an out-of-range iteration index (absolute value above
Niterations, or equal to it), get_posns, get_forces, get_stresses,
get_enthalpy, get_energy and get_mixkey all fail with
IterationOutOfRange; get_cell also does provided the parsed cell
constraints are not all-zero (all-zero constraints make get_cell ignore
the requested iteration and read iteration 0, so it can succeed; and with
zero completed iterations the forces/stresses/energy/enthalpy extractors
fail with the distinct no-completed-SCF IndexError first). -/
theorem c1_theorem (c : readcas) (N : Nat) (i : Int)
    (htask : c.get_task = .ok "geometry")
    (hN : c.get_Niterations = .ok N)
    (hN1 : 1 ≤ N)
    (hi : i.natAbs > N ∨ i = (N : Int)) :
    c.get_posns (some i) = .error .iterationOutOfRange ∧
    c.get_forces (some i) = .error .iterationOutOfRange ∧
    c.get_stresses (some i) = .error .iterationOutOfRange ∧
    c.get_enthalpy (some i) = .error .iterationOutOfRange ∧
    c.get_energy (some i) = .error .iterationOutOfRange ∧
    c.get_mixkey (some i) = .error .iterationOutOfRange ∧
    (∀ v, c.get_cell_constrs = .ok v → v ≠ some [0, 0, 0, 0, 0, 0] →
      c.get_cell (some i) = .error .iterationOutOfRange) := by
  have hgr : c.geomrange (some i) 0 none = .error .iterationOutOfRange :=
    geomrange_oor c N i hN hi
  have htr : c.taskRange "geometry" (some i) = .error .iterationOutOfRange := by
    unfold readcas.taskRange
    rw [if_neg (by decide : ¬("geometry" : String) = "single"),
      if_pos (rfl : ("geometry" : String) = "geometry")]
    exact hgr
  have hN0 : ¬(N = 0) := by omega
  have hp : c.get_posns (some i) = .error .iterationOutOfRange := by
    unfold readcas.get_posns
    rw [htask]
    simp [htr]
  refine ⟨hp, ?_, ?_, ?_, ?_, by unfold readcas.get_mixkey; simp [hp], ?_⟩
  · unfold readcas.get_forces
    rw [hN]
    simp [hN0, htask, htr]
  · unfold readcas.get_stresses
    rw [hN]
    simp [hN0, htask, htr]
  · unfold readcas.get_enthalpy
    rw [hN]
    simp [hN0, htask, hgr]
  · unfold readcas.get_energy
    rw [hN]
    simp [hN0, htask, htr]
  · intro v hv hvne
    unfold readcas.get_cell
    rw [htask, hv]
    simp [hvne, hgr]

/-- C1 witness: the theorem applied to the two-iteration geometry log at
the out-of-range index 2 (equal to Niterations), with cell constraints
parsed as None. -/
theorem c1_witness :
    exTile.get_task = .ok "geometry" ∧
    exTile.get_Niterations = .ok 2 ∧
    ((2 : Int).natAbs > 2 ∨ (2 : Int) = ((2 : Nat) : Int)) ∧
    exTile.get_cell_constrs = .ok none ∧
    (exTile.get_posns (some 2) = .error .iterationOutOfRange ∧
      exTile.get_forces (some 2) = .error .iterationOutOfRange ∧
      exTile.get_stresses (some 2) = .error .iterationOutOfRange ∧
      exTile.get_enthalpy (some 2) = .error .iterationOutOfRange ∧
      exTile.get_energy (some 2) = .error .iterationOutOfRange ∧
      exTile.get_mixkey (some 2) = .error .iterationOutOfRange ∧
      exTile.get_cell (some 2) = .error .iterationOutOfRange) := by
  have h := c1_theorem exTile 2 2 (by decide) (by decide) (by omega) (Or.inr rfl)
  exact ⟨by decide, by decide, Or.inr rfl, by decide,
    h.1, h.2.1, h.2.2.1, h.2.2.2.1, h.2.2.2.2.1, h.2.2.2.2.2.1,
    h.2.2.2.2.2.2 none (by decide) (by decide)⟩

/-- C1 counterexample: a geometry report with Niterations 1 and all-zero
cell constraints; iteration 5 is out of range by the claim's own
condition, yet get_cell succeeds (it reads the frozen first-iteration
cell) instead of failing with IterationOutOfRange. -/
theorem c1_counterexample :
    exGeomZero.get_task = .ok "geometry" ∧
    exGeomZero.get_Niterations = .ok 1 ∧
    ((5 : Int).natAbs > 1 ∨ (5 : Int) = ((1 : Nat) : Int)) ∧
    exGeomZero.get_cell (some 5) = .ok [[1, 0, 0], [0, 1, 0], [0, 0, 1]] ∧
    exGeomZero.get_cell (some 5) ≠ .error .iterationOutOfRange := by
  refine ⟨by decide, by decide, Or.inl (by decide), by decide, by decide⟩

/-- One-step recurrence of the matching loop. -/
theorem mixMatch_succ (elems : List String) (posns : List (List Q)) (tol : Q)
    (elem : String) (posn : List Q) (n : Nat) :
    mixMatch elems posns tol elem posn (n + 1) =
      if isMixMatch elems posns tol elem posn n then some n
      else mixMatch elems posns tol elem posn n := by
  unfold mixMatch
  rw [List.range_succ, List.foldl_append]
  rfl

/-- The matching loop returns none exactly when no atom index matches. -/
theorem mixMatch_none_iff (elems : List String) (posns : List (List Q)) (tol : Q)
    (elem : String) (posn : List Q) : ∀ n : Nat,
    mixMatch elems posns tol elem posn n = none ↔
      ∀ i, i < n → isMixMatch elems posns tol elem posn i = false := by
  intro n
  induction n with
  | zero => simp [mixMatch]
  | succ n ih =>
    rw [mixMatch_succ]
    cases hmi : isMixMatch elems posns tol elem posn n with
    | true =>
      rw [if_pos rfl]
      constructor
      · intro hc; exact absurd hc (by simp)
      · intro hall; exact absurd (hall n (by omega)) (by simp [hmi])
    | false =>
      rw [if_neg (by simp)]
      rw [ih]
      constructor
      · intro hall i hilt
        rcases Nat.lt_succ_iff_lt_or_eq.mp hilt with hlt | heq
        · exact hall i hlt
        · subst heq; exact hmi
      · intro hall i hilt; exact hall i (by omega)

/-- A returned match index is a matching atom and no later atom index in
range matches (the loop keeps overwriting, so it is the last one). -/
theorem mixMatch_some (elems : List String) (posns : List (List Q)) (tol : Q)
    (elem : String) (posn : List Q) : ∀ (n : Nat) (j : Nat),
    mixMatch elems posns tol elem posn n = some j →
      j < n ∧ isMixMatch elems posns tol elem posn j = true ∧
        ∀ k, k < n → isMixMatch elems posns tol elem posn k = true → k ≤ j := by
  intro n
  induction n with
  | zero => intro j h; simp [mixMatch] at h
  | succ n ih =>
    intro j h
    rw [mixMatch_succ] at h
    cases hmi : isMixMatch elems posns tol elem posn n with
    | true =>
      rw [if_pos hmi] at h
      injection h with h
      subst h
      exact ⟨by omega, hmi, fun k hk _ => by omega⟩
    | false =>
      rw [if_neg (by simp [hmi])] at h
      obtain ⟨hj, hmj, hmax⟩ := ih j h
      refine ⟨by omega, hmj, ?_⟩
      intro k hk hmk
      rcases Nat.lt_succ_iff_lt_or_eq.mp hk with hlt | heq
      · exact hmax k hlt hmk
      · subst heq; exact absurd hmk (by simp [hmi])

/-- C3 (amended).  In get_mixkey's mixture resolution, when at least one
atom matches an 8-token row (same element, Euclidean distance below the
tolerance), the matched index is the LAST such atom (the source loop has
no break, so later hits overwrite earlier ones), not the first; and when
no atom matches, the 8-token row step of the block scan fails with the
KeyError for an unmatched mixture site. -/
theorem c3_theorem (elems : List String) (posns : List (List Q)) (tol : Q)
    (elem : String) (posn : List Q) (nions : Nat) :
    ((∃ i, i < nions ∧ isMixMatch elems posns tol elem posn i = true) →
      ∃ j, mixMatch elems posns tol elem posn nions = some j ∧ j < nions ∧
        isMixMatch elems posns tol elem posn j = true ∧
        ∀ k, k < nions → isMixMatch elems posns tol elem posn k = true → k ≤ j) ∧
    ((∀ i, i < nions → isMixMatch elems posns tol elem posn i = false) →
      mixMatch elems posns tol elem posn nions = none) ∧
    (∀ (lines : List String) (fuel l : Nat) (line : String) (st : MixState) (m : MixMap),
      lines[l]? = some line →
      (pysplit line).head? = some "x" →
      (pysplit line).length = 8 →
      st.posn = none →
      (pyslice (pysplit line) 2 5).mapM pyfloat? = some posn →
      (pysplit line).getD 5 "" = elem →
      nions ≤ elems.length →
      mixMatch elems posns tol elem posn nions = none →
      mixScanF lines elems posns nions tol (fuel + 1) l st m = .error .keyError) := by
  refine ⟨?_, ?_, ?_⟩
  · intro ⟨i, hi, hmi⟩
    cases hmm : mixMatch elems posns tol elem posn nions with
    | none =>
      exact absurd hmi (by simp [(mixMatch_none_iff elems posns tol elem posn nions).mp hmm i hi])
    | some j =>
      exact ⟨j, rfl, mixMatch_some elems posns tol elem posn nions j hmm⟩
  · intro hall
    exact (mixMatch_none_iff elems posns tol elem posn nions).mpr hall
  · intro lines fuel l line st m hline hhead hlen hposn hparse helem hle hmm
    simp only [mixScanF]
    rw [hline]
    simp only [hhead]
    rw [if_pos trivial, if_pos hlen, hposn]
    simp only [hparse]
    rw [if_pos hle, helem, hmm]

/-- C3 witness: the theorem applied twice at concrete data: two Fe atoms
both within tolerance of a row (the match exists and is the last index),
and a row naming Cu that no atom matches (the scan step fails with the
KeyError). -/
theorem c3_witness :
    (0 < 2 ∧
      isMixMatch ["Fe", "Fe"] [[0, 0, 0], [1/100000, 0, 0]] (1/10000) "Fe" [0, 0, 0] 0 = true) ∧
    (∃ j, mixMatch ["Fe", "Fe"] [[0, 0, 0], [1/100000, 0, 0]] (1/10000) "Fe" [0, 0, 0] 2 = some j ∧
      j < 2 ∧
      isMixMatch ["Fe", "Fe"] [[0, 0, 0], [1/100000, 0, 0]] (1/10000) "Fe" [0, 0, 0] j = true ∧
      ∀ k, k < 2 →
        isMixMatch ["Fe", "Fe"] [[0, 0, 0], [1/100000, 0, 0]] (1/10000) "Fe" [0, 0, 0] k = true →
          k ≤ j) ∧
    mixScanF ["x x 0.000000 0.000000 0.000000 Cu 0.700000 x"] ["Fe", "Fe"]
        [[0, 0, 0], [1/100000, 0, 0]] 2 (1/10000) 1 0 ⟨[], none, none, none⟩ [] =
      .error .keyError :=
  ⟨⟨by decide, by decide⟩,
    ( c3_theorem ["Fe", "Fe"] [[0, 0, 0], [1/100000, 0, 0]] (1/10000) "Fe" [0, 0, 0] 2).1
      ⟨0, by decide, by decide⟩,
    ( c3_theorem ["Fe", "Fe"] [[0, 0, 0], [1/100000, 0, 0]] (1/10000) "Cu" [0, 0, 0] 2).2.2
      ["x x 0.000000 0.000000 0.000000 Cu 0.700000 x"] 0 0
      "x x 0.000000 0.000000 0.000000 Cu 0.700000 x" ⟨[], none, none, none⟩ []
      (by decide) (by decide) (by decide) rfl (by decide) (by decide) (by decide) (by decide)⟩

/-- C3 counterexample: in the concrete mixEx report atom 0 matches the
mixture row (same element, distance 0), yet the resolver records matched
index 1 (the last matching atom): the occupancy record lands on atom 1's
position key and atom 0 keeps its default entry, contradicting the
first-atom claim. -/
theorem c3_counterexample :
    mixEx.get_posns (some (-1)) = .ok [[0, 0, 0], [1/100000, 0, 0]] ∧
    mixEx.get_elements = .ok ["Fe", "Fe"] ∧
    isMixMatch ["Fe", "Fe"] [[0, 0, 0], [1/100000, 0, 0]] mixEx.flttol "Fe" [0, 0, 0] 0 = true ∧
    mixMatch ["Fe", "Fe"] [[0, 0, 0], [1/100000, 0, 0]] mixEx.flttol "Fe" [0, 0, 0] 2 = some 1 ∧
    (some 1 : Option Nat) ≠ some 0 ∧
    mixEx.get_mixkey (some (-1)) =
      .ok [("0.000000 0.000000 0.000000", ("Fe", [("Fe", 1)])),
           ("0.000010 0.000000 0.000000", ("Fe", [("Fe", 7/10), ("Ni", 3/10)]))] := by
  refine ⟨by decide, by decide, by decide, by decide, by decide, by decide⟩
